import Mathlib

/-!
# Verification of the `univention_apps` Ansible module

Shallow embedding of `src/lib/ansible/modules/univention_apps.py` (a module
that reconciles installation state of one named UCS app via the
`univention-app` command-line tool), together with theorems settling the
frozen claims about it.

Modelling decisions, all taken from the source:

* The module runs under Python 2 (`platform.dist()`, list-returning
  `filter`): `filter(lambda x: name in x, lst)` is truthy iff some element
  of `lst` contains `name` as a substring.
* The global `available_apps_list` is the *raw stdout string* of
  `univention-app list --ids-only` (it is never split into lines), so
  `name in available_apps_list` is a substring test on that string.
* `installed_apps_list` / `upgradable_apps_list` are lists of strings
  parsed from the JSON of `univention-app info --as-json`.
* `module.exit_json` / `module.fail_json` terminate the run (they raise
  `SystemExit` in Ansible); a `try/finally` block still runs its
  `finally` clause before the exit propagates.
* Subprocess execution, temp-file creation and removal are modelled as an
  event trace; the nondeterminism of the environment (the temp path chosen
  by `tempfile`, the exit code of the one corrective action, and whether an
  unexpected fault is raised during the action call) is an explicit `Env`
  parameter.
-/

/-- Python's `needle == hay[:len(needle)]` check on character lists:
`needle` is an initial segment of `hay`. -/
def startsL : List Char → List Char → Bool
  | [], _ => true
  | _ :: _, [] => false
  | a :: as, b :: bs => a == b && startsL as bs

/-- Python's substring operator `needle in hay` on character lists:
`needle` occurs contiguously somewhere in `hay`. -/
def hasSubL (needle : List Char) : List Char → Bool
  | [] => startsL needle []
  | c :: cs => startsL needle (c :: cs) || hasSubL needle cs

/-- Python's `needle in hay` for strings (substring containment). -/
def strContains (hay needle : String) : Bool :=
  hasSubL needle.data hay.data

/-- Truthiness of Python 2's `filter(lambda x: needle in x, lst)`:
the filtered list is non-empty, i.e. some element contains `needle`. -/
def filterMatch (needle : String) (lst : List String) : Bool :=
  lst.any (fun x => strContains x needle)

/-- The three module-level globals set by `get_apps_status()`:
`available_apps_list` (raw stdout of `univention-app list --ids-only`),
`installed_apps_list` and `upgradable_apps_list` (parsed from
`univention-app info --as-json`). One immutable snapshot per run. -/
structure AppsStatus where
  available_apps_list : String
  installed_apps_list : List String
  upgradable_apps_list : List String
deriving Repr, DecidableEq

/-- `check_app_present`: `_appname in available_apps_list and
filter(lambda x: _appname in x, installed_apps_list)`. -/
def check_app_present (st : AppsStatus) (appname : String) : Bool :=
  strContains st.available_apps_list appname &&
    filterMatch appname st.installed_apps_list

/-- `check_app_absent`: `_appname in available_apps_list and not
filter(lambda x: _appname in x, installed_apps_list)`. -/
def check_app_absent (st : AppsStatus) (appname : String) : Bool :=
  strContains st.available_apps_list appname &&
    !(filterMatch appname st.installed_apps_list)

/-- `check_app_upgradeable`: `_appname in available_apps_list and
filter(lambda x: _appname in x, upgradable_apps_list)`. -/
def check_app_upgradeable (st : AppsStatus) (appname : String) : Bool :=
  strContains st.available_apps_list appname &&
    filterMatch appname st.upgradable_apps_list

/-- The classification value of the spec's data model. -/
inductive AppStatus where
  | NotFound
  | Absent
  | PresentCurrent
  | PresentUpgradable
deriving Repr, DecidableEq

/-- The classification the code actually computes, read off `main`'s branch
structure: the run is in the `NotFound` case exactly when the first
logic-check (`not app_absent and not app_present`) fires, and otherwise the
status is decided by `check_app_present` / `check_app_upgradeable`, with the
upgrade test taken before the plain presence test. -/
def classify (st : AppsStatus) (appname : String) : AppStatus :=
  if !(check_app_absent st appname) && !(check_app_present st appname) then
    .NotFound
  else if check_app_present st appname && check_app_upgradeable st appname then
    .PresentUpgradable
  else if check_app_present st appname then
    .PresentCurrent
  else
    .Absent

/-- The snapshot as the spec's data model describes it: three *sets* of app
identifiers. -/
structure SpecSnapshot where
  available : List String
  installed : List String
  upgradable : List String
deriving Repr, DecidableEq

/-- Modelled from the spec's words (section 4.3), for comparison with the
code's `classify`: exact-identifier membership throughout. -/
def classifyExact (s : SpecSnapshot) (name : String) : AppStatus :=
  if !(s.available.contains name) then .NotFound
  else if s.installed.contains name && s.upgradable.contains name then
    .PresentUpgradable
  else if s.installed.contains name then .PresentCurrent
  else .Absent

/-- How a `SpecSnapshot` is realised by the module's globals: the available
identifiers arrive as the newline-separated stdout of
`univention-app list --ids-only`. -/
def toAppsStatus (s : SpecSnapshot) : AppsStatus :=
  { available_apps_list := String.intercalate "\n" s.available
    installed_apps_list := s.installed
    upgradable_apps_list := s.upgradable }

/-- The module parameters declared in `main`'s `argument_spec`. -/
structure Params where
  name : String
  state : String
  upgrade : Bool
  auth_username : String
  auth_password : String
deriving Repr, DecidableEq

/-- Environmental nondeterminism of one run: the path `tempfile` picks for
the auth file, the exit code `run_command` returns for the one corrective
action, and whether an unexpected fault (exception) is raised during the
action call inside the `try` block. -/
structure Env where
  tmpPath : String
  actionExit : Nat
  fault : Bool
deriving Repr, DecidableEq

/-- Observable effects of one run, in order. -/
inductive Event where
  /-- `module.run_command(cmd)` — a subprocess invocation. -/
  | RunCmd (cmd : String)
  /-- `generate_tmp_auth_file(data)` wrote `content` to a fresh temp file. -/
  | CreateAuth (path : String) (content : String)
  /-- `os.remove(path)` on the auth file. -/
  | RemoveAuth (path : String)
deriving Repr, DecidableEq

/-- How a run terminates. -/
inductive RunResult where
  /-- `module.exit_json(changed=…, msg=…)`. -/
  | ExitJson (changed : Bool) (msg : String)
  /-- `module.fail_json(msg=…)`. -/
  | FailJson (msg : String)
  /-- an unexpected exception propagated out of the run. -/
  | Fault
deriving Repr, DecidableEq

/-- The command strings of `ansible_exec`'s `univention_app_cmd` dictionary.
`list` and `info` are fixed; `install`, `remove` and `upgrade` all format
the same template from the action, username, keyfile and app name. -/
def ansible_exec_cmd (action appname keyfile username : String) : String :=
  if action == "list" then "univention-app list --ids-only"
  else if action == "info" then "univention-app info --as-json"
  else
    "univention-app " ++ action ++ " --noninteractive --username " ++
      username ++ " --pwdfile " ++ keyfile ++ " " ++ appname

/-- The two probe invocations performed by `get_apps_status()` before any
decision is taken. -/
def probeEvents : List Event :=
  [.RunCmd (ansible_exec_cmd "list" "" "" ""),
   .RunCmd (ansible_exec_cmd "info" "" "" "")]

/-- One corrective-action branch of `main`: `generate_tmp_auth_file`, then
`try: <action>; exit_json/fail_json ... finally: os.remove(auth_file)`.
The `finally` clause removes the auth file on every exit path — normal
exit, failure exit, or an unexpected fault raised by the action call. -/
def withAuthAction (action : String) (p : Params) (env : Env)
    (okMsg failMsg : String) : RunResult × List Event :=
  let path := env.tmpPath
  if env.fault then
    (.Fault, [.CreateAuth path p.auth_password, .RemoveAuth path])
  else
    let cmd := ansible_exec_cmd action p.name path p.auth_username
    if env.actionExit == 0 then
      (.ExitJson true okMsg,
        [.CreateAuth path p.auth_password, .RunCmd cmd, .RemoveAuth path])
    else
      (.FailJson failMsg,
        [.CreateAuth path p.auth_password, .RunCmd cmd, .RemoveAuth path])

/-- The message of `main`'s first logic-check failure: the app name is
covered by neither presence check, so it "does not exist"; the message
appends `str(available_apps_list)`, i.e. the raw listing string. -/
def unknownAppMsg (name : String) (st : AppsStatus) : String :=
  "app " ++ name ++ " does not exist. Please choose from following options:\n"
    ++ st.available_apps_list

/-- The message of `main`'s second logic-check failure (an app reported
both present and absent). -/
def statusErrMsg (name : String) : String :=
  "an error occured while getting the status of " ++ name

/-- `main` after the platform guard and `get_apps_status()`: the probe
events, the two logic checks, and the decision chain. The upgrade block is
a separate `if` in the source, but every path through it terminates the
run, so the chain is faithfully an if/elif cascade. -/
def runMain (p : Params) (st : AppsStatus) (env : Env) :
    RunResult × List Event :=
  let pres := check_app_present st p.name
  let abse := check_app_absent st p.name
  let upgr := check_app_upgradeable st p.name
  let done := fun (r : RunResult × List Event) => (r.1, probeEvents ++ r.2)
  done <|
  if !abse && !pres then
    (.FailJson (unknownAppMsg p.name st), [])
  else if abse && pres then
    (.FailJson (statusErrMsg p.name), [])
  else if p.state == "present" && upgr && p.upgrade then
    withAuthAction "upgrade" p env
      ("App " ++ p.name ++ " successfully upgraded.")
      ("an error occured while upgrading " ++ p.name)
  else if p.state == "present" && pres then
    (.ExitJson false ("App " ++ p.name ++ " already installed. No change."), [])
  else if p.state == "present" && !pres then
    withAuthAction "install" p env
      ("App " ++ p.name ++ " successfully installed.")
      ("an error occured while installing " ++ p.name)
  else if p.state == "absent" && pres then
    withAuthAction "remove" p env
      ("App " ++ p.name ++ " successfully removed.")
      ("an error occured while uninstalling " ++ p.name)
  else if p.state == "absent" && abse then
    (.ExitJson false ("App " ++ p.name ++ " not installed. No change."), [])
  else
    (.FailJson ("an unknown error occured while handling " ++ p.name), [])

/-- Is this event the execution of an `install` action command? -/
def isInstallCmd (e : Event) : Bool :=
  match e with
  | .RunCmd c => strContains c "univention-app install"
  | _ => false

/-- Is this event the execution of an `upgrade` action command? -/
def isUpgradeCmd (e : Event) : Bool :=
  match e with
  | .RunCmd c => strContains c "univention-app upgrade"
  | _ => false

/-- Is this event the execution of a `remove` action command? -/
def isRemoveCmd (e : Event) : Bool :=
  match e with
  | .RunCmd c => strContains c "univention-app remove"
  | _ => false

/-- One step of auth-file accounting: creation adds the path, removal
erases it. -/
def authStep (acc : List String) (e : Event) : List String :=
  match e with
  | .CreateAuth path _ => path :: acc
  | .RemoveAuth path => acc.erase path
  | .RunCmd _ => acc

/-- The auth-file paths still on disk after a trace of events. -/
def livePaths (tr : List Event) : List String := tr.foldl authStep []

/-- The command strings of every subprocess invocation in a trace. -/
def cmdsOf (tr : List Event) : List String :=
  tr.filterMap (fun e =>
    match e with
    | .RunCmd c => some c
    | _ => none)

/-- Claim C10: `check_app_present` and `check_app_absent` are never both
true (each conjoins the availability test with the installed-match test and
its negation), so the guard of the defensive "schroedinger's app-status"
branch in `main` (line 181) is identically false and the branch is
unreachable; and both checks are false exactly when the availability test
fails. -/
theorem C10_checks_disjoint :
    ∀ (st : AppsStatus) (n : String),
      ((check_app_absent st n && check_app_present st n) = false) ∧
      (((!check_app_absent st n && !check_app_present st n) = true) ↔
        strContains st.available_apps_list n = false) := by
  intro st n
  cases hA : strContains st.available_apps_list n <;>
    cases hI : filterMatch n st.installed_apps_list <;>
      simp [check_app_present, check_app_absent, hA, hI]

/-- Claim C1: the code's classification diverges from the claim's
exact-membership algorithm. On the snapshot with available listing
"wordpress", installed `["wordpress"]`, upgradable `[]`, the name "word"
is classified `PresentCurrent` by the code (substring matching both in the
availability string and against the installed entries), while the
exact-membership algorithm of the claim yields `NotFound`. -/
theorem C1_substring_divergence :
    classify (toAppsStatus ⟨["wordpress"], ["wordpress"], []⟩) "word"
        = .PresentCurrent ∧
      classifyExact ⟨["wordpress"], ["wordpress"], []⟩ "word" = .NotFound ∧
      classify (toAppsStatus ⟨["wordpress"], ["wordpress"], []⟩) "word"
        ≠ classifyExact ⟨["wordpress"], ["wordpress"], []⟩ "word" := by
  decide

/-- Counterexample to C2 as stated: "dudle" is available and not installed,
target is present — yet no Install action is executed, because the name
matches the upgradable list and the upgrade flag is set, so the upgrade
branch fires first. -/
theorem C2_counterexample :
    ((runMain ⟨"dudle", "present", true, "admin", "pw"⟩
        (toAppsStatus ⟨["dudle"], [], ["dudle"]⟩)
        ⟨"/tmp/c2", 0, false⟩).2.countP isInstallCmd) = 0 ∧
      ((runMain ⟨"dudle", "present", true, "admin", "pw"⟩
        (toAppsStatus ⟨["dudle"], [], ["dudle"]⟩)
        ⟨"/tmp/c2", 0, false⟩).2.countP isUpgradeCmd) = 1 := by
  decide

/-- Claim C2 (amended): for an app name passing the availability test but
matching no installed entry: with target `present`, provided the upgrade
branch does not fire first (the upgrade flag is false or the name matches
no upgradable entry — automatic whenever upgradable entries are also
installed ones) and no unexpected fault occurs, exactly one Install action
is executed and the run reports `changed=true` on tool exit code 0 and
fails otherwise; with target `absent`, the run reports `changed=false`
with no action beyond the probes. -/
theorem C2_install_or_noop :
    ∀ (p : Params) (st : AppsStatus) (env : Env),
      strContains st.available_apps_list p.name = true →
      filterMatch p.name st.installed_apps_list = false →
      ((p.state = "present" →
          (p.upgrade = false ∨ filterMatch p.name st.upgradable_apps_list = false) →
          env.fault = false →
          runMain p st env =
            ((if env.actionExit == 0 then
                RunResult.ExitJson true
                  ("App " ++ p.name ++ " successfully installed.")
              else
                RunResult.FailJson
                  ("an error occured while installing " ++ p.name)),
             probeEvents ++
               [.CreateAuth env.tmpPath p.auth_password,
                .RunCmd (ansible_exec_cmd "install" p.name env.tmpPath
                  p.auth_username),
                .RemoveAuth env.tmpPath])) ∧
        (p.state = "absent" →
          runMain p st env =
            (.ExitJson false ("App " ++ p.name ++ " not installed. No change."),
             probeEvents))) := by
  intro p st env hA hI
  constructor
  · intro hs hu hf
    cases he : env.actionExit == 0 <;>
      rcases hu with hu | hu <;>
        simp [runMain, withAuthAction, check_app_present, check_app_absent,
          check_app_upgradeable, hA, hI, hs, hu, hf, he]
  · intro hs
    simp [runMain, check_app_present, check_app_absent, hA, hI, hs]

/-- Witness for C2: the spec's scenario — available wordpress and
nextcloud, nothing installed, target present, upgrade false, tool exit 0:
one Install of wordpress, `changed=true`; and the same snapshot with
target absent: `changed=false`, probes only. -/
theorem C2_witness :
    runMain ⟨"wordpress", "present", false, "admin", "secret"⟩
        (toAppsStatus ⟨["wordpress", "nextcloud"], [], []⟩)
        ⟨"/tmp/w2", 0, false⟩
      = (.ExitJson true "App wordpress successfully installed.",
         probeEvents ++
           [.CreateAuth "/tmp/w2" "secret",
            .RunCmd (ansible_exec_cmd "install" "wordpress" "/tmp/w2" "admin"),
            .RemoveAuth "/tmp/w2"]) ∧
      runMain ⟨"wordpress", "absent", false, "admin", "secret"⟩
        (toAppsStatus ⟨["wordpress", "nextcloud"], [], []⟩)
        ⟨"/tmp/w2", 0, false⟩
      = (.ExitJson false "App wordpress not installed. No change.",
         probeEvents) := by
  constructor
  · have h := ((C2_install_or_noop
      ⟨"wordpress", "present", false, "admin", "secret"⟩
      (toAppsStatus ⟨["wordpress", "nextcloud"], [], []⟩)
      ⟨"/tmp/w2", 0, false⟩) (by decide) (by decide)).1 rfl (Or.inl rfl) rfl
    simpa using h
  · exact ((C2_install_or_noop
      ⟨"wordpress", "absent", false, "admin", "secret"⟩
      (toAppsStatus ⟨["wordpress", "nextcloud"], [], []⟩)
      ⟨"/tmp/w2", 0, false⟩) (by decide) (by decide)).2 rfl

/-- Counterexample to C4 as stated: "etherpad" is in both the installed and
the upgradable lists, target is present and the upgrade flag is true — yet
no Upgrade action is executed, because the name fails the availability
test, so both logic checks are false and the run aborts with the "does not
exist" failure first. -/
theorem C4_counterexample :
    runMain ⟨"etherpad", "present", true, "admin", "pw"⟩
        ⟨"", ["etherpad"], ["etherpad"]⟩ ⟨"/tmp/c4", 0, false⟩
      = (.FailJson (unknownAppMsg "etherpad" ⟨"", ["etherpad"], ["etherpad"]⟩),
         probeEvents) ∧
      ((runMain ⟨"etherpad", "present", true, "admin", "pw"⟩
        ⟨"", ["etherpad"], ["etherpad"]⟩
        ⟨"/tmp/c4", 0, false⟩).2.countP isUpgradeCmd) = 0 := by
  decide

/-- Claim C4 (amended): for an app name that passes the availability test
and matches both the installed and the upgradable lists, with target
`present`, upgrade flag true and no unexpected fault, exactly one Upgrade
action is executed, with `changed=true` on tool exit code 0 and a failure
otherwise. The installed-match hypothesis makes the plain
"already installed" no-op condition hold as well, so the conclusion shows
the upgrade check is evaluated first. -/
theorem C4_upgrade_precedence :
    ∀ (p : Params) (st : AppsStatus) (env : Env),
      strContains st.available_apps_list p.name = true →
      filterMatch p.name st.installed_apps_list = true →
      filterMatch p.name st.upgradable_apps_list = true →
      p.state = "present" → p.upgrade = true → env.fault = false →
      runMain p st env =
        ((if env.actionExit == 0 then
            RunResult.ExitJson true
              ("App " ++ p.name ++ " successfully upgraded.")
          else
            RunResult.FailJson
              ("an error occured while upgrading " ++ p.name)),
         probeEvents ++
           [.CreateAuth env.tmpPath p.auth_password,
            .RunCmd (ansible_exec_cmd "upgrade" p.name env.tmpPath
              p.auth_username),
            .RemoveAuth env.tmpPath]) := by
  intro p st env hA hI hU hs hup hf
  cases he : env.actionExit == 0 <;>
    simp [runMain, withAuthAction, check_app_present, check_app_absent,
      check_app_upgradeable, hA, hI, hU, hs, hup, hf, he]

/-- Witness for C4: the spec's scenario — wordpress available, installed
and upgradable, target present, upgrade true, tool exit 0: one Upgrade,
`changed=true`. -/
theorem C4_witness :
    runMain ⟨"wordpress", "present", true, "admin", "secret"⟩
        (toAppsStatus ⟨["wordpress"], ["wordpress"], ["wordpress"]⟩)
        ⟨"/tmp/w4", 0, false⟩
      = (.ExitJson true "App wordpress successfully upgraded.",
         probeEvents ++
           [.CreateAuth "/tmp/w4" "secret",
            .RunCmd (ansible_exec_cmd "upgrade" "wordpress" "/tmp/w4" "admin"),
            .RemoveAuth "/tmp/w4"]) := by
  have h := C4_upgrade_precedence
    ⟨"wordpress", "present", true, "admin", "secret"⟩
    (toAppsStatus ⟨["wordpress"], ["wordpress"], ["wordpress"]⟩)
    ⟨"/tmp/w4", 0, false⟩
    (by decide) (by decide) (by decide) rfl rfl rfl
  simpa using h

/-- Counterexample to C5 as stated: "kopano" is in the installed list and
the target is absent — yet no Remove action is executed, because the name
fails the availability test and the run aborts with the "does not exist"
failure first. -/
theorem C5_counterexample :
    runMain ⟨"kopano", "absent", false, "admin", "pw"⟩
        ⟨"", ["kopano"], []⟩ ⟨"/tmp/c5", 0, false⟩
      = (.FailJson (unknownAppMsg "kopano" ⟨"", ["kopano"], []⟩),
         probeEvents) ∧
      ((runMain ⟨"kopano", "absent", false, "admin", "pw"⟩
        ⟨"", ["kopano"], []⟩ ⟨"/tmp/c5", 0, false⟩).2.countP isRemoveCmd) = 0 := by
  decide

/-- Claim C5 (amended): for an app name that passes the availability test
and matches the installed list, with target `absent` and no unexpected
fault, exactly one Remove action is executed — regardless of the
upgradable list and of the upgrade flag — with `changed=true` on tool exit
code 0 and a failure otherwise. -/
theorem C5_remove_on_absent_target :
    ∀ (p : Params) (st : AppsStatus) (env : Env),
      strContains st.available_apps_list p.name = true →
      filterMatch p.name st.installed_apps_list = true →
      p.state = "absent" → env.fault = false →
      runMain p st env =
        ((if env.actionExit == 0 then
            RunResult.ExitJson true
              ("App " ++ p.name ++ " successfully removed.")
          else
            RunResult.FailJson
              ("an error occured while uninstalling " ++ p.name)),
         probeEvents ++
           [.CreateAuth env.tmpPath p.auth_password,
            .RunCmd (ansible_exec_cmd "remove" p.name env.tmpPath
              p.auth_username),
            .RemoveAuth env.tmpPath]) := by
  intro p st env hA hI hs hf
  cases he : env.actionExit == 0 <;>
    simp [runMain, withAuthAction, check_app_present, check_app_absent,
      check_app_upgradeable, hA, hI, hs, hf, he]

/-- Witness for C5: the spec's scenario — wordpress available and
installed (and even upgradable, with the upgrade flag set), target absent,
tool exit 0: one Remove, `changed=true`. -/
theorem C5_witness :
    runMain ⟨"wordpress", "absent", true, "admin", "secret"⟩
        (toAppsStatus ⟨["wordpress"], ["wordpress"], ["wordpress"]⟩)
        ⟨"/tmp/w5", 0, false⟩
      = (.ExitJson true "App wordpress successfully removed.",
         probeEvents ++
           [.CreateAuth "/tmp/w5" "secret",
            .RunCmd (ansible_exec_cmd "remove" "wordpress" "/tmp/w5" "admin"),
            .RemoveAuth "/tmp/w5"]) := by
  have h := C5_remove_on_absent_target
    ⟨"wordpress", "absent", true, "admin", "secret"⟩
    (toAppsStatus ⟨["wordpress"], ["wordpress"], ["wordpress"]⟩)
    ⟨"/tmp/w5", 0, false⟩
    (by decide) (by decide) rfl rfl
  simpa using h

/-- Claim C7: on every run — whatever the parameters, the snapshot and the
environment, including action failure (non-zero exit) and an unexpected
fault raised during the action — every auth file created by
`generate_tmp_auth_file` is removed again by the `finally` clause, so no
staged credential path is live at the end of the trace. -/
theorem C7_auth_file_cleanup :
    ∀ (p : Params) (st : AppsStatus) (env : Env),
      livePaths (runMain p st env).2 = [] := by
  intro p st env
  cases hP : check_app_present st p.name <;>
    cases hA : check_app_absent st p.name <;>
      cases hU : check_app_upgradeable st p.name <;>
        cases hsp : p.state == "present" <;>
          cases hsa : p.state == "absent" <;>
            cases hup : p.upgrade <;>
              cases hf : env.fault <;>
                cases he : env.actionExit == 0 <;>
                  simp [runMain, withAuthAction, livePaths, authStep,
                    probeEvents, List.foldl, List.erase_cons,
                    hP, hA, hU, hsp, hsa, hup, hf, he]

/-- Claim C9: the subprocess command strings of a run are a function of
everything except the password — two runs differing only in
`auth_password` issue identical command lines for the list, info and
action invocations; the secret reaches the tool only through the staged
file's content, never as a command-line argument. -/
theorem C9_password_not_in_commands :
    ∀ (p : Params) (st : AppsStatus) (env : Env) (pw1 pw2 : String),
      cmdsOf (runMain { p with auth_password := pw1 } st env).2 =
        cmdsOf (runMain { p with auth_password := pw2 } st env).2 := by
  intro p st env pw1 pw2
  cases hP : check_app_present st p.name <;>
    cases hA : check_app_absent st p.name <;>
      cases hU : check_app_upgradeable st p.name <;>
        cases hsp : p.state == "present" <;>
          cases hsa : p.state == "absent" <;>
            cases hup : p.upgrade <;>
              cases hf : env.fault <;>
                cases he : env.actionExit == 0 <;>
                  simp [runMain, withAuthAction, cmdsOf, probeEvents,
                    hP, hA, hU, hsp, hsa, hup, hf, he]
